import Mathlib

/-!
Verification of the pager notification dispatch engine
(`package/src/index.ts`, most complete revision: the module holding `page`,
`processBatch`, `sendNotification`, `clearNotificationQueue`).

The shallow embedding below translates that module into pure Lean
functions.  Effects are made explicit:

* the module-level mutable variables `lastNotificationTime`,
  `notificationQueue` and `batchTimeout` are threaded as arguments and
  returned as results (the timer handle is abstracted to a `Bool`,
  "a timer reference is currently set");
* every `fetch` call is represented by the `HttpRequest` record it issues
  (URL, bearer header, JSON body, and whether an abort controller with a
  timeout is attached) together with a `FetchOutcome` oracle describing
  how the network answered (resolved with a status/body, or rejected);
* a queue entry's `resolve` callback is represented by a numeric identity,
  and "resolving a promise" is an emitted `(id, response)` pair;
* `Date.now()` values are supplied as `Int` arguments, ISO timestamp
  strings as `String` arguments.

JavaScript runtime details that the code relies on are modelled
faithfully: `x || y` on strings/numbers/booleans falls through on falsy
values (`""`, `0`, `false`, `undefined`), object spread keeps every
present key, a parsed JSON body may lack any field of the declared
response type (hence every response field is an `Option`).
-/

namespace Pager

/-- Priority levels for notifications (`types.ts`, `PagerPriority`). -/
inductive PagerPriority
  | low
  | medium
  | high
deriving DecidableEq, Repr

/-- Options for sending a notification (`types.ts`, `PagerNotificationOptions`).
Absent fields are `none`. -/
structure PagerNotificationOptions where
  priority : Option PagerPriority := none
  category : Option String := none
  tags : Option (List String) := none
  metadata : Option (List (String × String)) := none
  batchingEnabled : Option Bool := none
deriving DecidableEq, Repr

/-- Configuration for the Pager system (`types.ts`, `PagerConfig`),
as the partial record the `page` function receives. -/
structure PagerConfig where
  apiKey : Option String := none
  backendUrl : Option String := none
  debug : Option Bool := none
  throttleMs : Option Int := none
  batchingEnabled : Option Bool := none
  batchDelayMs : Option Int := none
deriving DecidableEq, Repr

/-- The single object argument of `page`: a JavaScript object that may carry
any key of `PagerConfig` and of `PagerNotificationOptions`.  The code
disambiguates by probing for the option-only keys. -/
structure ConfigOrOptionsArg where
  apiKey : Option String := none
  backendUrl : Option String := none
  debug : Option Bool := none
  throttleMs : Option Int := none
  batchingEnabled : Option Bool := none
  batchDelayMs : Option Int := none
  priority : Option PagerPriority := none
  category : Option String := none
  tags : Option (List String) := none
  metadata : Option (List (String × String)) := none
deriving DecidableEq, Repr

/-- The ambient environment variables read by `page`. -/
structure Env where
  NEXT_PUBLIC_PAGER_API_KEY : Option String := none
  PAGER_API_KEY : Option String := none
  NEXT_PUBLIC_PAGER_BACKEND_URL : Option String := none
  PAGER_BACKEND_URL : Option String := none
  NEXT_PUBLIC_PAGER_DEBUG : Option String := none
  PAGER_DEBUG : Option String := none
deriving DecidableEq, Repr

/-- Wire payload of one notification (`types.ts`, `PagerNotificationPayload`).
The code builds it as `{ message, ...notificationOptions, timestamp }`, so the
spread also copies a `batchingEnabled` key when the options carry one; the
field is kept here to stay faithful to the runtime object. -/
structure PagerNotificationPayload where
  message : String
  priority : Option PagerPriority := none
  category : Option String := none
  tags : Option (List String) := none
  metadata : Option (List (String × String)) := none
  batchingEnabled : Option Bool := none
  timestamp : String
deriving DecidableEq, Repr

/-- Response object (`types.ts`, `PagerNotificationResponse`).  Every field is
optional because a 2xx JSON body is returned verbatim and may omit any of
them at runtime. -/
structure PagerNotificationResponse where
  success : Option Bool := none
  id : Option String := none
  error : Option String := none
  timestamp : Option String := none
  rateLimited : Option Bool := none
  retryAfter : Option Int := none
  batched : Option Bool := none
  batchSize : Option Int := none
deriving DecidableEq, Repr

/-- One entry of the module-level batching queue (`types.ts`,
`PagerBatchedNotification`).  The promise's `resolve` callback is modelled by
the numeric identity `id`; resolving the promise is emitting a pair
`(id, response)`. -/
structure PagerBatchedNotification where
  payload : PagerNotificationPayload
  apiKey : String
  backendUrl : String
  timestamp : String
  id : Nat
deriving DecidableEq, Repr

/-- JSON body of one outbound POST: either a single payload (solo send) or the
batch body `{ notifications, timestamp, batchSize }`. -/
inductive RequestBody
  | single (payload : PagerNotificationPayload)
  | batch (notifications : List PagerNotificationPayload) (timestamp : String)
      (batchSize : Int)
deriving DecidableEq, Repr

/-- One `fetch` call as issued by the module.  `timeoutMs = some n` records
that an `AbortController` whose abort fires after `n` milliseconds is attached
to the request; `none` records that the call carries no abort signal. -/
structure HttpRequest where
  url : String
  contentTypeJson : Bool
  authBearer : Option String
  body : RequestBody
  timeoutMs : Option Int
deriving DecidableEq, Repr

/-- How the network answered one `fetch`:
`resp ok jsonBody errorText` - the promise resolved; `ok` is `response.ok`
(2xx), `jsonBody` is the parsed JSON body (`none` when `response.json()`
throws, i.e. a non-JSON or empty body), `errorText` is the text read on a
non-2xx response; `thrown isAbortError message` - the promise rejected
(network failure, or the abort signal fired when one is attached). -/
inductive FetchOutcome
  | resp (ok : Bool) (jsonBody : Option PagerNotificationResponse)
      (errorText : String)
  | thrown (isAbortError : Bool) (message : String)
deriving DecidableEq, Repr

/-- JavaScript `opt || fallback` on a string-valued optional: `undefined` and
the empty string are falsy. -/
def strFalsyOr (v : Option String) (fallback : String) : String :=
  match v with
  | some s => if s = "" then fallback else s
  | none => fallback

/-- JavaScript `opt || fallback` on a number-valued optional: `undefined` and
`0` are falsy. -/
def intFalsyOr (v : Option Int) (fallback : Int) : Int :=
  match v with
  | some n => if n = 0 then fallback else n
  | none => fallback

/-- `DEFAULT_THROTTLE_MS` (index.ts line 22). -/
def DEFAULT_THROTTLE_MS : Int := 5000

/-- `DEFAULT_BATCH_DELAY_MS` (index.ts line 30). -/
def DEFAULT_BATCH_DELAY_MS : Int := 2000

/-- `apiKey` resolution (index.ts lines 137-141):
`config?.apiKey || NEXT_PUBLIC_PAGER_API_KEY || PAGER_API_KEY || ""`. -/
def resolveApiKey (config : PagerConfig) (env : Env) : String :=
  strFalsyOr config.apiKey
    (strFalsyOr env.NEXT_PUBLIC_PAGER_API_KEY
      (strFalsyOr env.PAGER_API_KEY ""))

/-- `backendUrl` resolution (index.ts lines 143-147). -/
def resolveBackendUrl (config : PagerConfig) (env : Env) : String :=
  strFalsyOr config.backendUrl
    (strFalsyOr env.NEXT_PUBLIC_PAGER_BACKEND_URL
      (strFalsyOr env.PAGER_BACKEND_URL "/api/notifications"))

/-- `debug` resolution (index.ts lines 149-153). -/
def resolveDebug (config : PagerConfig) (env : Env) : Bool :=
  config.debug.getD false
    || env.NEXT_PUBLIC_PAGER_DEBUG == some "true"
    || env.PAGER_DEBUG == some "true"

/-- `throttleMs` resolution (index.ts line 156). -/
def resolveThrottleMs (config : PagerConfig) : Int :=
  intFalsyOr config.throttleMs DEFAULT_THROTTLE_MS

/-- `sendNotification` (index.ts lines 374-479).  Arguments beyond the
TypeScript ones: `outcome` is how the network answered the `fetch`,
`nowAfterFetch` is `Date.now()` as read on line 405 (right after the fetch
promise resolved), `lastNotificationTime` is the module variable on entry.
Returns the request issued, the response returned to the caller, and the
module variable on exit.  The request always carries the 10-second abort
timeout (lines 388-389).  When the fetch resolves, line 405 sets
`lastNotificationTime := Date.now()` before the `response.ok` check; when the
fetch rejects, control jumps to the catch block and the variable is left
unchanged. -/
def sendNotification (payload : PagerNotificationPayload) (apiKey : String)
    (backendUrl : String) (outcome : FetchOutcome) (nowAfterFetch : Int)
    (lastNotificationTime : Int) :
    HttpRequest × PagerNotificationResponse × Int :=
  let req : HttpRequest :=
    { url := backendUrl
      contentTypeJson := true
      authBearer := if apiKey = "" then none else some apiKey
      body := .single payload
      timeoutMs := some 10000 }
  match outcome with
  | .resp ok jsonBody errorText =>
    let last' := nowAfterFetch
    if ok then
      match jsonBody with
      | some responseData => (req, responseData, last')
      | none =>
        (req, { success := some true, timestamp := some payload.timestamp },
          last')
    else
      (req,
        { success := some false
          error := some ("Failed to send notification: " ++ errorText)
          timestamp := some payload.timestamp },
        last')
  | .thrown isAbortError message =>
    let errorMessage :=
      if isAbortError then "Notification request timed out after 10 seconds"
      else message
    (req,
      { success := some false
        error := some errorMessage
        timestamp := some payload.timestamp },
      lastNotificationTime)

/-- Insertion into the grouping map (index.ts lines 271-277): a JavaScript
`Map` keeps keys in first-insertion order and `push` appends at the end of a
key's bucket. -/
def insertGroup :
    List (String × List PagerBatchedNotification) → String →
      PagerBatchedNotification → List (String × List PagerBatchedNotification)
  | [], key, n => [(key, [n])]
  | (k, ns) :: rest, key, n =>
    if k = key then (k, ns ++ [n]) :: rest
    else (k, ns) :: insertGroup rest key n

/-- Grouping of the drained queue by `` `${backendUrl}|${apiKey}` ``
(index.ts lines 263-277). -/
def groupEntries (queue : List PagerBatchedNotification) :
    List (String × List PagerBatchedNotification) :=
  queue.foldl (fun gs n => insertGroup gs (n.backendUrl ++ "|" ++ n.apiKey) n)
    []

/-- Merge performed on a batch group's success (index.ts lines 334-342):
`{ ...responseData, success: true, timestamp: notification.timestamp,
batched: true, batchSize: notifications.length }`. -/
def mergeBatchSuccess (responseData : PagerNotificationResponse)
    (entryTimestamp : String) (groupSize : Int) : PagerNotificationResponse :=
  { responseData with
    success := some true
    timestamp := some entryTimestamp
    batched := some true
    batchSize := some groupSize }

/-- Body of the per-group loop of `processBatch` (index.ts lines 280-367).
`key` is the map key, from which the code re-derives the URL and API key by
`key.split("|")`; `nowIso` is the `Date.now()` ISO string of line 287,
`nowIso2` the one of line 329 (non-JSON body fallback).  The batch `fetch`
(lines 292-299) attaches no abort controller, hence `timeoutMs := none`.
Returns the request issued for the group and the list of promise resolutions
(one per entry, in queue order). -/
def processGroup (key : String)
    (notifications : List PagerBatchedNotification) (nowIso nowIso2 : String)
    (outcome : FetchOutcome) :
    HttpRequest × List (Nat × PagerNotificationResponse) :=
  let parts := key.splitOn "|"
  let backendUrl := (parts.get? 0).getD ""
  let apiKey := (parts.get? 1).getD ""
  let req : HttpRequest :=
    { url := backendUrl ++ "/batch"
      contentTypeJson := true
      authBearer := if apiKey = "" then none else some apiKey
      body := .batch (notifications.map (·.payload)) nowIso
        (notifications.length : Int)
      timeoutMs := none }
  match outcome with
  | .resp ok jsonBody errorText =>
    if ok then
      let responseData :=
        jsonBody.getD { success := some true, timestamp := some nowIso2 }
      (req,
        notifications.map (fun n =>
          (n.id,
            mergeBatchSuccess responseData n.timestamp
              (notifications.length : Int))))
    else
      (req,
        notifications.map (fun n =>
          (n.id,
            { success := some false
              error := some ("Failed to send batch notification: " ++ errorText)
              timestamp := some n.timestamp })))
  | .thrown _ message =>
    (req,
      notifications.map (fun n =>
        (n.id,
          { success := some false
            error := some ("Failed to send batch notification: " ++ message)
            timestamp := some n.timestamp })))

/-- `processBatch` (index.ts lines 247-368), given the queue already drained
into `currentQueue`: the timer handle is cleared by the caller-side state
machine; with an empty queue the function returns before any network call
(line 255); otherwise the drained entries are grouped and each group is
processed in map order, the `i`-th group's `fetch` answering with
`oracle i`.  Returns all requests issued and all promise resolutions. -/
def processBatch (currentQueue : List PagerBatchedNotification)
    (nowIso nowIso2 : String) (oracle : Nat → FetchOutcome) :
    List HttpRequest × List (Nat × PagerNotificationResponse) :=
  if currentQueue = [] then ([], [])
  else
    let groups := groupEntries currentQueue
    let results := groups.enum.map (fun p =>
      processGroup p.2.1 p.2.2 nowIso nowIso2 (oracle p.1))
    (results.map Prod.fst, (results.map Prod.snd).flatten)

/-- `clearNotificationQueue` (index.ts lines 482-499): clears the timer
handle, resolves every queued entry with the fixed failure response, and
empties the queue.  Returns the new queue, the new timer flag, and the
emitted resolutions. -/
def clearNotificationQueue (notificationQueue : List PagerBatchedNotification)
    (batchTimeout : Bool) :
    List PagerBatchedNotification × Bool ×
      List (Nat × PagerNotificationResponse) :=
  ([], false,
    notificationQueue.map (fun n =>
      (n.id,
        { success := some false
          error := some "Notification queue was cleared before sending"
          timestamp := some n.timestamp })))

/-- The rate-limiting decision inlined at index.ts lines 178-184: the check
only runs when the call is not high priority, and throttles iff
`lastNotificationTime > 0 && now - lastNotificationTime < throttleMs`. -/
def shouldThrottle (now lastNotificationTime throttleMs : Int)
    (isHighPriority : Bool) : Bool :=
  !isHighPriority && decide (lastNotificationTime > 0)
    && decide (now - lastNotificationTime < throttleMs)

/-- `Math.ceil(n / 1000)` on an integer number of milliseconds. -/
def ceilDiv1000 (n : Int) : Int := -((-n).fdiv 1000)

/-- Projection of the single object argument onto `PagerConfig`
(index.ts line 130, `configOrOptions as Partial<PagerConfig>`). -/
def argToConfig (a : ConfigOrOptionsArg) : PagerConfig :=
  { apiKey := a.apiKey
    backendUrl := a.backendUrl
    debug := a.debug
    throttleMs := a.throttleMs
    batchingEnabled := a.batchingEnabled
    batchDelayMs := a.batchDelayMs }

/-- Projection of the single object argument onto `PagerNotificationOptions`
(index.ts line 127, `configOrOptions as PagerNotificationOptions`). -/
def argToOptions (a : ConfigOrOptionsArg) : PagerNotificationOptions :=
  { priority := a.priority
    category := a.category
    tags := a.tags
    metadata := a.metadata
    batchingEnabled := a.batchingEnabled }

/-- The overload probe of index.ts lines 120-125:
`"priority" in x || "category" in x || "tags" in x || "metadata" in x`. -/
def hasOptionKeys (a : ConfigOrOptionsArg) : Bool :=
  a.priority.isSome || a.category.isSome || a.tags.isSome || a.metadata.isSome

/-- Overload resolution of `page` (index.ts lines 114-132): the first
optional argument is treated as notification options when it carries an
option-only key, as configuration otherwise. -/
def resolveCall (configOrOptions : Option ConfigOrOptionsArg)
    (options : Option PagerNotificationOptions) :
    PagerConfig × PagerNotificationOptions :=
  match configOrOptions with
  | none => ({}, options.getD {})
  | some a =>
    if hasOptionKeys a then ({}, argToOptions a)
    else (argToConfig a, options.getD {})

/-- `{ message, ...notificationOptions, timestamp }` (index.ts lines
205-209). -/
def buildPayload (message : String) (o : PagerNotificationOptions)
    (timestamp : String) : PagerNotificationPayload :=
  { message := message
    priority := o.priority
    category := o.category
    tags := o.tags
    metadata := o.metadata
    batchingEnabled := o.batchingEnabled
    timestamp := timestamp }

/-- What one `page` call hands back to its caller: a settled response, or a
still-pending promise (identified by the queue entry's resolver id) when the
payload was enqueued for batching. -/
inductive PageResult
  | resp (r : PagerNotificationResponse)
  | pending (id : Nat)
deriving DecidableEq, Repr

/-- Observable outcome of one `page` call: the caller-visible result, the
network requests issued during the call, and the module variables
(`lastNotificationTime`, `notificationQueue`, `batchTimeout`) on exit. -/
structure PageOutput where
  result : PageResult
  requests : List HttpRequest
  lastNotificationTime : Int
  notificationQueue : List PagerBatchedNotification
  batchTimeout : Bool
deriving DecidableEq, Repr

/-- `page` (index.ts lines 109-241).  Beyond the TypeScript arguments:
`env` is the process environment, `now` is `Date.now()` of line 180,
`timestamp` the ISO string of line 163, `freshId` the resolver identity of
the promise created on line 213, `fetchOutcome`/`nowAfterFetch` feed
`sendNotification` when the call dispatches solo, and the trailing three
arguments are the module variables on entry.

The call either returns the throttled response immediately (no request, no
state change), enqueues the payload (queue grows, a timer is set if none was
active, the caller's promise is pending), or dispatches solo via
`sendNotification`. -/
def page (message : String) (configOrOptions : Option ConfigOrOptionsArg)
    (options : Option PagerNotificationOptions) (env : Env) (now : Int)
    (timestamp : String) (freshId : Nat) (fetchOutcome : FetchOutcome)
    (nowAfterFetch : Int) (lastNotificationTime : Int)
    (notificationQueue : List PagerBatchedNotification)
    (batchTimeout : Bool) : PageOutput :=
  let resolved := resolveCall configOrOptions options
  let config := resolved.1
  let notificationOptions := resolved.2
  let apiKey := resolveApiKey config env
  let backendUrl := resolveBackendUrl config env
  let throttleMs := resolveThrottleMs config
  let batchingEnabled := config.batchingEnabled.getD false
  let isHighPriority := notificationOptions.priority == some .high
  if shouldThrottle now lastNotificationTime throttleMs isHighPriority then
    let retryAfterSec := ceilDiv1000 (throttleMs - (now - lastNotificationTime))
    { result := .resp
        { success := some false
          error := some ("Rate limited: Too many notifications. Try again in "
            ++ toString retryAfterSec ++ " seconds.")
          timestamp := some timestamp
          rateLimited := some true
          retryAfter := some retryAfterSec }
      requests := []
      lastNotificationTime := lastNotificationTime
      notificationQueue := notificationQueue
      batchTimeout := batchTimeout }
  else
    let payload := buildPayload message notificationOptions timestamp
    if batchingEnabled && !isHighPriority then
      let notification : PagerBatchedNotification :=
        { payload := payload
          apiKey := apiKey
          backendUrl := backendUrl
          timestamp := timestamp
          id := freshId }
      { result := .pending freshId
        requests := []
        lastNotificationTime := lastNotificationTime
        notificationQueue := notificationQueue ++ [notification]
        batchTimeout := true }
    else
      let sent := sendNotification payload apiKey backendUrl fetchOutcome
        nowAfterFetch lastNotificationTime
      { result := .resp sent.2.1
        requests := [sent.1]
        lastNotificationTime := sent.2.2
        notificationQueue := notificationQueue
        batchTimeout := batchTimeout }

/-- The module-level mutable state of index.ts, plus a counter of
`processBatch` executions currently suspended at their `await fetch`
("flushes in flight").  `batchTimeout` abstracts the timer handle to
"a timer reference is currently set". -/
structure ModuleState where
  lastNotificationTime : Int
  notificationQueue : List PagerBatchedNotification
  batchTimeout : Bool
  flushesInFlight : Nat
deriving DecidableEq, Repr

/-- The atomic synchronous blocks of the module, as interleaved by the
single-threaded event loop:

* `enqueueEv n` - the batching branch of `page` (lines 211-237): push the
  entry and set a timer if none is active;
* `flushFire` - a set timer fires: the synchronous prefix of `processBatch`
  (lines 247-277) clears the timer handle, and, when the queue is non-empty,
  drains it (copy-then-clear) and suspends at the batch `fetch`;
* `flushComplete` - a suspended `processBatch` finishes its awaits;
* `clearQueueEv` - `clearNotificationQueue` (lines 482-499);
* `soloFetchResolved t` - the solo `fetch` of `sendNotification` resolved and
  line 405 set `lastNotificationTime := Date.now()` (value `t`);
* `soloFetchRejected` - the solo `fetch` rejected: the catch block runs and
  `lastNotificationTime` is untouched. -/
inductive Event
  | enqueueEv (n : PagerBatchedNotification)
  | flushFire
  | flushComplete
  | clearQueueEv
  | soloFetchResolved (t : Int)
  | soloFetchRejected
deriving DecidableEq, Repr

/-- One atomic transition of the module state; `none` when the event is not
enabled (a timer can only fire while its handle is set, a flush can only
complete while one is in flight). -/
def step (s : ModuleState) (e : Event) : Option ModuleState :=
  match e with
  | .enqueueEv n =>
    some { s with
      notificationQueue := s.notificationQueue ++ [n]
      batchTimeout := true }
  | .flushFire =>
    if s.batchTimeout then
      if s.notificationQueue.isEmpty then
        some { s with batchTimeout := false }
      else
        some { s with
          batchTimeout := false
          notificationQueue := []
          flushesInFlight := s.flushesInFlight + 1 }
    else none
  | .flushComplete =>
    if s.flushesInFlight > 0 then
      some { s with flushesInFlight := s.flushesInFlight - 1 }
    else none
  | .clearQueueEv =>
    some { s with notificationQueue := [], batchTimeout := false }
  | .soloFetchResolved t =>
    some { s with lastNotificationTime := t }
  | .soloFetchRejected => some s

/-- Run a sequence of events from a state. -/
def runEvents (s : ModuleState) : List Event → Option ModuleState
  | [] => some s
  | e :: es =>
    match step s e with
    | some s' => runEvents s' es
    | none => none

/-- The state of the freshly loaded module (index.ts lines 20-30):
`lastNotificationTime = 0`, empty queue, no timer, nothing in flight. -/
def initState : ModuleState :=
  { lastNotificationTime := 0
    notificationQueue := []
    batchTimeout := false
    flushesInFlight := 0 }

/-- A module state reachable from the fresh module by some interleaving of
the atomic blocks. -/
def Reachable (s : ModuleState) : Prop :=
  ∃ es : List Event, runEvents initState es = some s

/-- All entries held by a grouping, in group order. -/
def flattenGroups (gs : List (String × List PagerBatchedNotification)) :
    List PagerBatchedNotification :=
  (gs.map Prod.snd).flatten

/-- Shape demanded of one batch-flush promise resolution: either the
success shape (`success=true`, `batched=true`, some `batchSize`) or the
failure shape (`success=false`, no `batched` field, a non-empty error). -/
def resolutionShapeB (p : Nat × PagerNotificationResponse) : Bool :=
  (p.2.success == some true && p.2.batched == some true && p.2.batchSize.isSome)
    || (p.2.success == some false && p.2.batched == (none : Option Bool)
        && (match p.2.error with
            | some m => !(m == "")
            | none => false))

/-- A concrete payload used by concrete-input theorems. -/
def samplePayload : PagerNotificationPayload :=
  { message := "m", timestamp := "T" }

/-- A concrete queue entry used by concrete-input theorems. -/
def sampleEntry : PagerBatchedNotification :=
  { payload := samplePayload
    apiKey := "k"
    backendUrl := "https://x.example"
    timestamp := "T"
    id := 0 }

/-- A second concrete queue entry. -/
def sampleEntry2 : PagerBatchedNotification :=
  { payload := samplePayload
    apiKey := "k2"
    backendUrl := "https://y.example"
    timestamp := "T2"
    id := 1 }

/-- The interleaving: enqueue, the timer fires and the flush suspends at its
batch `fetch`, and a new call enqueues while that flush is in flight. -/
def flushInFlightTrace : List Event :=
  [.enqueueEv sampleEntry, .flushFire, .enqueueEv sampleEntry2]

/-- The state reached by `flushInFlightTrace`: a fresh timer is set for the
new entry while the drained batch's flush is still in flight. -/
def flushInFlightState : ModuleState :=
  { lastNotificationTime := 0
    notificationQueue := [sampleEntry2]
    batchTimeout := true
    flushesInFlight := 1 }

/-- The state after a single enqueue on the fresh module. -/
def oneEnqueueState : ModuleState :=
  { lastNotificationTime := 0
    notificationQueue := [sampleEntry]
    batchTimeout := true
    flushesInFlight := 0 }

/-- Claim C2: the throttle decision is false whenever the call is high
priority; false whenever `lastNotificationTime` is unset (`0`, as on the
fresh module), so the first call on a fresh limiter always proceeds; and
otherwise it is true if and only if `now - lastNotificationTime <
throttleMs`, so after `throttleMs` has elapsed the next call proceeds
again. -/
theorem shouldThrottle_contract (now lastNotificationTime throttleMs : Int) :
    (shouldThrottle now lastNotificationTime throttleMs true = false)
    ∧ (∀ hp : Bool, shouldThrottle now 0 throttleMs hp = false)
    ∧ (∀ hp : Bool,
        shouldThrottle now initState.lastNotificationTime throttleMs hp = false)
    ∧ (0 < lastNotificationTime →
        (shouldThrottle now lastNotificationTime throttleMs false = true
          ↔ now - lastNotificationTime < throttleMs))
    ∧ (0 < lastNotificationTime → throttleMs ≤ now - lastNotificationTime →
        shouldThrottle now lastNotificationTime throttleMs false = false) := by
  refine ⟨?_, ?_, ?_, ?_, ?_⟩
  · simp [shouldThrottle]
  · intro hp
    simp [shouldThrottle]
  · intro hp
    simp [shouldThrottle, initState]
  · intro h
    simp [shouldThrottle, h]
  · intro h hle
    simp [shouldThrottle, h]
    omega

/-- Witness for C2 at the spec's own numbers: limiter last fired at time 1,
`throttleMs = 1000`; a solo call at time 501 is throttled, one at time 1002
is not. -/
theorem shouldThrottle_contract_witness :
    ((0 : Int) < 1)
    ∧ (shouldThrottle 501 1 1000 false = true ↔ (501 : Int) - 1 < 1000)
    ∧ (shouldThrottle 1002 1 1000 false = false) := by
  refine ⟨by decide, (shouldThrottle_contract 501 1 1000).2.2.2.1 (by decide), ?_⟩
  exact (shouldThrottle_contract 1002 1 1000).2.2.2.2 (by decide) (by decide)

/-- Claim C6 (amended): for a solo send answered by a 2xx response, a JSON
body is returned verbatim as the response (no merging, no defaulting of
`success`), and a non-JSON or empty body yields exactly
`{ success := true, timestamp := payload.timestamp }`. -/
theorem solo_2xx_json_body_verbatim (payload : PagerNotificationPayload)
    (apiKey backendUrl : String) (body : PagerNotificationResponse)
    (errorText : String) (nowAfterFetch lastNotificationTime : Int) :
    ((sendNotification payload apiKey backendUrl (.resp true (some body) errorText)
        nowAfterFetch lastNotificationTime).2.1 = body)
    ∧ ((sendNotification payload apiKey backendUrl (.resp true none errorText)
        nowAfterFetch lastNotificationTime).2.1 =
          { success := some true, timestamp := some payload.timestamp }) := by
  constructor <;> rfl

/-- Counterexample to C6 as stated: a 2xx response whose JSON body is the
empty object `{}` is returned with no `success` field at all - the code does
not default `success` to `true` when the body does not set it. -/
theorem solo_2xx_body_without_success_field :
    ((sendNotification samplePayload "" "u" (.resp true (some {}) "") 9 0).2.1
      = ({} : PagerNotificationResponse))
    ∧ (({} : PagerNotificationResponse)).success = none
    ∧ ((none : Option Bool) = some true → False) := by
  refine ⟨rfl, rfl, ?_⟩
  intro h
  cases h

/-- Counterexample to C4 as stated: a solo dispatch attempt that fails with a
thrown transport error (fetch rejected at time 777) returns a `success=false`
response but leaves `lastNotificationTime` at its old value 5 - a failed
send of this kind does not count toward the throttle window. -/
theorem lastSendAt_unchanged_on_thrown_failure :
    ((sendNotification samplePayload "" "u" (.thrown false "network down") 777 5).2.1.success
      = some false)
    ∧ ((sendNotification samplePayload "" "u" (.thrown false "network down") 777 5).2.2 = 5)
    ∧ (((5 : Int) = 777) → False) := by
  refine ⟨rfl, rfl, ?_⟩
  intro h
  exact absurd h (by decide)

/-- Claim C4 (amended): `lastNotificationTime` is mutated at exactly one
point - immediately after the solo `fetch` resolves with an HTTP response,
on 2xx and non-2xx alike - while a rejected solo `fetch` (network error or
timeout) leaves it unchanged, and the batching operations (enqueue, flush
fire, flush completion, queue clearing) never update it. -/
theorem lastSendAt_updated_only_on_resolved_solo
    (payload : PagerNotificationPayload) (apiKey backendUrl : String)
    (ok : Bool) (jsonBody : Option PagerNotificationResponse)
    (errorText : String) (isAbortError : Bool) (message : String)
    (nowAfterFetch lastNotificationTime : Int) :
    ((sendNotification payload apiKey backendUrl (.resp ok jsonBody errorText)
        nowAfterFetch lastNotificationTime).2.2 = nowAfterFetch)
    ∧ ((sendNotification payload apiKey backendUrl (.thrown isAbortError message)
        nowAfterFetch lastNotificationTime).2.2 = lastNotificationTime)
    ∧ (∀ s s' : ModuleState, ∀ n : PagerBatchedNotification,
        step s (.enqueueEv n) = some s' →
          s'.lastNotificationTime = s.lastNotificationTime)
    ∧ (∀ s s' : ModuleState, step s .flushFire = some s' →
        s'.lastNotificationTime = s.lastNotificationTime)
    ∧ (∀ s s' : ModuleState, step s .flushComplete = some s' →
        s'.lastNotificationTime = s.lastNotificationTime)
    ∧ (∀ s s' : ModuleState, step s .clearQueueEv = some s' →
        s'.lastNotificationTime = s.lastNotificationTime)
    ∧ (∀ s s' : ModuleState, ∀ e : Event, step s e = some s' →
        s'.lastNotificationTime ≠ s.lastNotificationTime →
          ∃ t, e = .soloFetchResolved t ∧ s'.lastNotificationTime = t) := by
  refine ⟨?_, ?_, ?_, ?_, ?_, ?_, ?_⟩
  · cases ok <;> cases jsonBody <;> rfl
  · rfl
  · intro s s' n h
    simp only [step, Option.some.injEq] at h
    rw [← h]
  · intro s s' h
    simp only [step] at h
    split at h
    · split at h
      · cases h
        rfl
      · cases h
        rfl
    · cases h
  · intro s s' h
    simp only [step] at h
    split at h
    · cases h
      rfl
    · cases h
  · intro s s' h
    simp only [step, Option.some.injEq] at h
    rw [← h]
  · intro s s' e h hne
    cases e with
    | enqueueEv n =>
      simp only [step, Option.some.injEq] at h
      rw [← h] at hne
      exact absurd rfl hne
    | flushFire =>
      simp only [step] at h
      split at h
      · split at h <;> (cases h; exact absurd rfl hne)
      · cases h
    | flushComplete =>
      simp only [step] at h
      split at h
      · cases h
        exact absurd rfl hne
      · cases h
    | clearQueueEv =>
      simp only [step, Option.some.injEq] at h
      rw [← h] at hne
      exact absurd rfl hne
    | soloFetchResolved t =>
      simp only [step, Option.some.injEq] at h
      exact ⟨t, rfl, by rw [← h]⟩
    | soloFetchRejected =>
      simp only [step, Option.some.injEq] at h
      rw [← h] at hne
      exact absurd rfl hne

/-- Witness for C4's amended theorem: a resolved solo fetch at time 42 sets
the limiter to 42, a rejected one leaves it at 0, and an enqueue leaves the
limiter of the fresh module untouched. -/
theorem lastSendAt_updated_only_on_resolved_solo_witness :
    ((sendNotification samplePayload "" "u" (.resp true none "") 42 0).2.2 = 42)
    ∧ ((sendNotification samplePayload "" "u" (.thrown false "x") 42 0).2.2 = 0)
    ∧ (oneEnqueueState.lastNotificationTime = initState.lastNotificationTime) := by
  have h := lastSendAt_updated_only_on_resolved_solo samplePayload "" "u" true
    none "" false "x" 42 0
  exact ⟨h.1, h.2.1, h.2.2.1 initState oneEnqueueState sampleEntry (by decide)⟩

/-- Claim C1, evaluated at the failing input: a call
`page("m", undefined, { batchingEnabled: true })` - per-call notification
options enable batching, no configuration does, priority is not high, the
limiter is fresh - dispatches solo: it issues the single-notification
request immediately, returns its settled response, and leaves the batch
queue empty with no timer.  The effective batching flag is computed from the
configuration alone (`config?.batchingEnabled || false`); the per-call
option `batchingEnabled` documented in `types.ts` is never read. -/
theorem options_batching_flag_ignored :
    page "m" none (some { batchingEnabled := some true }) {} 100 "T" 7
        (.resp true none "") 100 0 [] false =
      { result := .resp { success := some true, timestamp := some "T" }
        requests := [{ url := "/api/notifications"
                       contentTypeJson := true
                       authBearer := none
                       body := .single { message := "m"
                                         batchingEnabled := some true
                                         timestamp := "T" }
                       timeoutMs := some 10000 }]
        lastNotificationTime := 100
        notificationQueue := []
        batchTimeout := false } := by
  rfl

/-- Counterexample to C5 as stated: the batch-send `fetch` issued by
`processBatch` for a concrete one-entry queue carries no request-scoped
cancellation at all (`timeoutMs = none`), while the claim requires the fixed
10-second timeout on batch sends too. -/
theorem batch_fetch_lacks_timeout :
    ((processBatch [sampleEntry] "B" "B2" (fun _ => .resp true none "")).1.map
        (fun r => r.timeoutMs) = [none])
    ∧ ((none : Option Int) = some 10000 → False) := by
  refine ⟨rfl, ?_⟩
  intro h
  cases h

/-- Claim C5 (amended): only the solo send is subject to the request-scoped
10-second cancellation - every solo request carries `timeoutMs = 10000`, and
an aborted solo fetch is reported as a structured `success=false` response
with the timeout-specific message, a non-abort rejection with the transport
error's own message - while every batch request is issued with no timeout
attached. -/
theorem timeout_scope_solo_only (payload : PagerNotificationPayload)
    (apiKey backendUrl : String) (outcome : FetchOutcome) (message : String)
    (nowAfterFetch lastNotificationTime : Int)
    (currentQueue : List PagerBatchedNotification) (nowIso nowIso2 : String)
    (oracle : Nat → FetchOutcome) :
    ((sendNotification payload apiKey backendUrl outcome nowAfterFetch
        lastNotificationTime).1.timeoutMs = some 10000)
    ∧ ((sendNotification payload apiKey backendUrl (.thrown true message)
        nowAfterFetch lastNotificationTime).2.1 =
          { success := some false
            error := some "Notification request timed out after 10 seconds"
            timestamp := some payload.timestamp })
    ∧ ((sendNotification payload apiKey backendUrl (.thrown false message)
        nowAfterFetch lastNotificationTime).2.1 =
          { success := some false
            error := some message
            timestamp := some payload.timestamp })
    ∧ ((processBatch currentQueue nowIso nowIso2 oracle).1.all
        (fun r => r.timeoutMs == none) = true) := by
  refine ⟨?_, rfl, rfl, ?_⟩
  · cases outcome with
    | resp ok jsonBody errorText => cases ok <;> cases jsonBody <;> rfl
    | thrown a m => rfl
  · unfold processBatch
    split
    · rfl
    · simp only [List.all_eq_true, List.mem_map]
      rintro r ⟨p, hp, rfl⟩
      obtain ⟨a, ha, rfl⟩ := hp
      have : (processGroup a.2.1 a.2.2 nowIso nowIso2 (oracle a.1)).1.timeoutMs
          = none := by
        cases h : oracle a.1 with
        | resp ok jsonBody errorText => cases ok <;> simp [processGroup, h]
        | thrown b m => simp [processGroup, h]
      simp [this]

/-- Helper: full characterisation of a throttled `page` call, and of the
proceed-to-dispatch behaviour once the window has elapsed. -/
theorem page_throttled_spec (message : String)
    (configOrOptions : Option ConfigOrOptionsArg)
    (options : Option PagerNotificationOptions) (env : Env) (now : Int)
    (timestamp : String) (freshId : Nat) (fetchOutcome : FetchOutcome)
    (nowAfterFetch lastNotificationTime : Int)
    (notificationQueue : List PagerBatchedNotification) (batchTimeout : Bool)
    (hp : (resolveCall configOrOptions options).2.priority
      ≠ some PagerPriority.high)
    (hset : 0 < lastNotificationTime) :
    (now - lastNotificationTime
        < resolveThrottleMs (resolveCall configOrOptions options).1 →
      page message configOrOptions options env now timestamp freshId
          fetchOutcome nowAfterFetch lastNotificationTime notificationQueue
          batchTimeout =
        { result := .resp
            { success := some false
              error := some ("Rate limited: Too many notifications. Try again in "
                ++ toString (ceilDiv1000
                  (resolveThrottleMs (resolveCall configOrOptions options).1
                    - (now - lastNotificationTime)))
                ++ " seconds.")
              timestamp := some timestamp
              rateLimited := some true
              retryAfter := some (ceilDiv1000
                (resolveThrottleMs (resolveCall configOrOptions options).1
                  - (now - lastNotificationTime))) }
          requests := []
          lastNotificationTime := lastNotificationTime
          notificationQueue := notificationQueue
          batchTimeout := batchTimeout })
    ∧ ((resolveCall configOrOptions options).1.batchingEnabled.getD false = false →
        resolveThrottleMs (resolveCall configOrOptions options).1
          ≤ now - lastNotificationTime →
        (page message configOrOptions options env now timestamp freshId
            fetchOutcome nowAfterFetch lastNotificationTime notificationQueue
            batchTimeout).requests.length = 1) := by
  have hpb : ((resolveCall configOrOptions options).2.priority
      == some PagerPriority.high) = false := by
    simpa using hp
  constructor
  · intro hlt
    simp [page, hpb, shouldThrottle, hset, hlt]
  · intro hb hle
    have hnlt : ¬(now - lastNotificationTime
        < resolveThrottleMs (resolveCall configOrOptions options).1) := by
      omega
    simp [page, hpb, shouldThrottle, hset, hnlt, hb]

/-- Claim C3: a throttled call (not high priority, limiter set, within the
resolved throttle window) performs no network I/O, leaves
`lastNotificationTime`, the queue and the timer unchanged, and returns
immediately a response with `success=false`, `rateLimited=true` and
`retryAfter = ceil((throttleMs - (now - lastSendAt)) / 1000)` seconds; and a
call arriving once the window has elapsed proceeds to a solo dispatch (one
request issued) when batching is off. -/
theorem throttled_call_no_io_no_mutation (message : String)
    (configOrOptions : Option ConfigOrOptionsArg)
    (options : Option PagerNotificationOptions) (env : Env) (now : Int)
    (timestamp : String) (freshId : Nat) (fetchOutcome : FetchOutcome)
    (nowAfterFetch lastNotificationTime : Int)
    (notificationQueue : List PagerBatchedNotification) (batchTimeout : Bool)
    (hp : (resolveCall configOrOptions options).2.priority
      ≠ some PagerPriority.high)
    (hset : 0 < lastNotificationTime) :
    (now - lastNotificationTime
        < resolveThrottleMs (resolveCall configOrOptions options).1 →
      page message configOrOptions options env now timestamp freshId
          fetchOutcome nowAfterFetch lastNotificationTime notificationQueue
          batchTimeout =
        { result := .resp
            { success := some false
              error := some ("Rate limited: Too many notifications. Try again in "
                ++ toString (ceilDiv1000
                  (resolveThrottleMs (resolveCall configOrOptions options).1
                    - (now - lastNotificationTime)))
                ++ " seconds.")
              timestamp := some timestamp
              rateLimited := some true
              retryAfter := some (ceilDiv1000
                (resolveThrottleMs (resolveCall configOrOptions options).1
                  - (now - lastNotificationTime))) }
          requests := []
          lastNotificationTime := lastNotificationTime
          notificationQueue := notificationQueue
          batchTimeout := batchTimeout })
    ∧ ((resolveCall configOrOptions options).1.batchingEnabled.getD false = false →
        resolveThrottleMs (resolveCall configOrOptions options).1
          ≤ now - lastNotificationTime →
        (page message configOrOptions options env now timestamp freshId
            fetchOutcome nowAfterFetch lastNotificationTime notificationQueue
            batchTimeout).requests.length = 1) :=
  page_throttled_spec message configOrOptions options env now timestamp freshId
    fetchOutcome nowAfterFetch lastNotificationTime notificationQueue
    batchTimeout hp hset

/-- Witness for C3: the spec scenario shifted to a set limiter
(`lastSendAt = 1 > 0`, `throttleMs = 1000`): the call 500ms later is
throttled with `retryAfter = 1` and touches nothing, the call 1001ms later
issues its solo request. -/
theorem throttled_call_no_io_no_mutation_witness :
    (page "msg" (some { throttleMs := some 1000 }) none {} 501 "T" 0
        (.resp true none "") 600 1 [] false =
      { result := .resp
          { success := some false
            error := some "Rate limited: Too many notifications. Try again in 1 seconds."
            timestamp := some "T"
            rateLimited := some true
            retryAfter := some 1 }
        requests := []
        lastNotificationTime := 1
        notificationQueue := []
        batchTimeout := false })
    ∧ ((page "msg" (some { throttleMs := some 1000 }) none {} 1002 "T" 0
        (.resp true none "") 1100 1 [] false).requests.length = 1) := by
  constructor
  · have h := (throttled_call_no_io_no_mutation "msg"
      (some { throttleMs := some 1000 }) none {} 501 "T" 0
      (.resp true none "") 600 1 [] false (by decide) (by decide)).1
      (by decide)
    exact h.trans (by decide)
  · exact (throttled_call_no_io_no_mutation "msg"
      (some { throttleMs := some 1000 }) none {} 1002 "T" 0
      (.resp true none "") 1100 1 [] false (by decide) (by decide)).2
      (by decide) (by decide)

/-- Claim C10: the limiter timestamp is one module-level value shared by all
calls.  For any two explicit configurations that differ in both
`backendUrl` and `apiKey` (and carry no option-only keys), a first
non-high-priority solo call whose fetch resolves at time `nowAfterFetch > 0`
sets the shared limiter to that time, and a second non-high-priority call
under the other configuration arriving within its resolved `throttleMs` of
that dispatch is throttled: it issues no request and gets a
`rateLimited=true` failure response. -/
theorem rate_limiter_shared_across_configs (c1 c2 : ConfigOrOptionsArg)
    (env : Env) (m1 m2 ts1 ts2 : String) (id1 id2 : Nat) (now1 : Int)
    (ok : Bool) (jsonBody : Option PagerNotificationResponse) (errText : String)
    (nowAfterFetch now2 : Int) (outcome2 : FetchOutcome) (nowAfterFetch2 : Int)
    (notificationQueue : List PagerBatchedNotification) (batchTimeout : Bool)
    (h1 : hasOptionKeys c1 = false) (h2 : hasOptionKeys c2 = false)
    (hurl : c1.backendUrl ≠ c2.backendUrl) (hkey : c1.apiKey ≠ c2.apiKey)
    (hbatch1 : c1.batchingEnabled.getD false = false)
    (hpos : 0 < nowAfterFetch)
    (hwin : now2 - nowAfterFetch < resolveThrottleMs (argToConfig c2)) :
    ((page m1 (some c1) none env now1 ts1 id1 (.resp ok jsonBody errText)
        nowAfterFetch 0 notificationQueue batchTimeout).lastNotificationTime
      = nowAfterFetch)
    ∧ ((page m2 (some c2) none env now2 ts2 id2 outcome2 nowAfterFetch2
        nowAfterFetch notificationQueue batchTimeout).requests = [])
    ∧ (∃ r, (page m2 (some c2) none env now2 ts2 id2 outcome2 nowAfterFetch2
          nowAfterFetch notificationQueue batchTimeout).result = .resp r
        ∧ r.rateLimited = some true ∧ r.success = some false) := by
  have hcfg : (resolveCall (some c2) none).1 = argToConfig c2 := by
    simp [resolveCall, h2]
  have hopt : (resolveCall (some c2) none).2 = {} := by
    simp [resolveCall, h2]
  have hthr := (page_throttled_spec m2 (some c2) none env now2 ts2
      id2 outcome2 nowAfterFetch2 nowAfterFetch notificationQueue batchTimeout
      (by rw [hopt]; decide) hpos).1 (by rw [hcfg]; exact hwin)
  refine ⟨?_, ?_, ?_⟩
  · cases ok <;> cases jsonBody <;>
      simp [page, resolveCall, h1, argToConfig, shouldThrottle, hbatch1,
        sendNotification]
  · rw [hthr]
  · rw [hthr]
    exact ⟨_, rfl, rfl, rfl⟩

/-- Witness for C10: two configurations with distinct backends and keys; the
first call's fetch resolves at time 1000; the second call at time 1500 is
then throttled (default `throttleMs = 5000`) even though every explicit
configuration field differs. -/
theorem rate_limiter_shared_across_configs_witness :
    ((page "a" (some { backendUrl := some "https://a.example/api", apiKey := some "k1" })
        none {} 0 "T1" 0 (.resp true none "") 1000 0 [] false).lastNotificationTime
      = 1000)
    ∧ ((page "b" (some { backendUrl := some "https://b.example/api", apiKey := some "k2" })
        none {} 1500 "T2" 1 (.resp true none "") 1600 1000 [] false).requests = [])
    ∧ (∃ r, (page "b" (some { backendUrl := some "https://b.example/api", apiKey := some "k2" })
          none {} 1500 "T2" 1 (.resp true none "") 1600 1000 [] false).result = .resp r
        ∧ r.rateLimited = some true ∧ r.success = some false) :=
  rate_limiter_shared_across_configs
    { backendUrl := some "https://a.example/api", apiKey := some "k1" }
    { backendUrl := some "https://b.example/api", apiKey := some "k2" }
    {} "a" "b" "T1" "T2" 0 1 0 true none "" 1000 1500 (.resp true none "") 1600
    [] false (by decide) (by decide) (by decide) (by decide) (by decide)
    (by decide) (by decide)

/-- Claim C8: `clearNotificationQueue` clears the timer, resolves every
currently queued entry exactly once with `success=false` and the fixed error
message (which contains "cleared"), and empties the queue; it is safe on any
queue including the empty one, and a flush attempted afterwards is a no-op
that issues no network request and resolves nothing. -/
theorem clear_queue_resolves_all_then_flush_noop
    (notificationQueue : List PagerBatchedNotification) (batchTimeout : Bool)
    (nowIso nowIso2 : String) (oracle : Nat → FetchOutcome) :
    ((clearNotificationQueue notificationQueue batchTimeout).1 = [])
    ∧ ((clearNotificationQueue notificationQueue batchTimeout).2.1 = false)
    ∧ ((clearNotificationQueue notificationQueue batchTimeout).2.2 =
        notificationQueue.map (fun n =>
          (n.id,
            { success := some false
              error := some "Notification queue was cleared before sending"
              timestamp := some n.timestamp })))
    ∧ (∃ pre post : List Char,
        pre ++ "cleared".data ++ post
          = "Notification queue was cleared before sending".data)
    ∧ (processBatch (clearNotificationQueue notificationQueue batchTimeout).1
        nowIso nowIso2 oracle = ([], [])) := by
  refine ⟨rfl, rfl, rfl, ?_, rfl⟩
  exact ⟨"Notification queue was ".data, " before sending".data, by decide⟩

/-- Counterexample to C9 as stated: after enqueuing, letting the timer fire
(the flush drains the queue and suspends at its batch fetch), and enqueuing
again while that flush is in flight, the module holds a set timer together
with an in-flight flush - so "timer non-null iff queue non-empty and no
flush in flight" fails at this reachable state. -/
theorem timer_set_while_flush_in_flight :
    (runEvents initState flushInFlightTrace = some flushInFlightState)
    ∧ (flushInFlightState.batchTimeout = true)
    ∧ (flushInFlightState.flushesInFlight ≠ 0)
    ∧ ¬(flushInFlightState.batchTimeout = true
        ↔ (flushInFlightState.notificationQueue ≠ []
            ∧ flushInFlightState.flushesInFlight = 0)) := by
  refine ⟨by decide, rfl, by decide, ?_⟩
  intro h
  exact absurd (h.mp rfl).2 (by decide)

/-- Claim C9 (amended): at every reachable module state, the flush timer
reference is set if and only if the queue is non-empty; whether a flush is
in flight is irrelevant, because an enqueue during an in-flight flush starts
a fresh timer for the new batch. -/
theorem timer_iff_queue_nonempty (s : ModuleState) (h : Reachable s) :
    s.batchTimeout = true ↔ s.notificationQueue ≠ [] := by
  obtain ⟨es, hrun⟩ := h
  have step_inv : ∀ (t : ModuleState) (e : Event) (t' : ModuleState),
      (t.batchTimeout = true ↔ t.notificationQueue ≠ []) →
      step t e = some t' →
      (t'.batchTimeout = true ↔ t'.notificationQueue ≠ []) := by
    intro t e t' hI hstep
    cases e with
    | enqueueEv n =>
      simp only [step, Option.some.injEq] at hstep
      rw [← hstep]
      simp
    | flushFire =>
      simp only [step] at hstep
      split at hstep
      · split at hstep
        · cases hstep
          rename_i hempty
          simp only [List.isEmpty_iff] at hempty
          simp [hempty]
        · cases hstep
          simp
      · cases hstep
    | flushComplete =>
      simp only [step] at hstep
      split at hstep
      · cases hstep
        exact hI
      · cases hstep
    | clearQueueEv =>
      simp only [step, Option.some.injEq] at hstep
      rw [← hstep]
      simp
    | soloFetchResolved t0 =>
      simp only [step, Option.some.injEq] at hstep
      rw [← hstep]
      exact hI
    | soloFetchRejected =>
      simp only [step, Option.some.injEq] at hstep
      rw [← hstep]
      exact hI
  have run_inv : ∀ (l : List Event) (t t' : ModuleState),
      (t.batchTimeout = true ↔ t.notificationQueue ≠ []) →
      runEvents t l = some t' →
      (t'.batchTimeout = true ↔ t'.notificationQueue ≠ []) := by
    intro l
    induction l with
    | nil =>
      intro t t' hI hrun
      simp only [runEvents, Option.some.injEq] at hrun
      rw [← hrun]
      exact hI
    | cons e es ih =>
      intro t t' hI hrun
      simp only [runEvents] at hrun
      cases hstep : step t e with
      | none => rw [hstep] at hrun; cases hrun
      | some u =>
        rw [hstep] at hrun
        exact ih u t' (step_inv t e u hI hstep) hrun
  exact run_inv es initState s (by simp [initState]) hrun

/-- Witness for C9's amended theorem at the state reached by one enqueue on
the fresh module: the timer is set and the queue is non-empty. -/
theorem timer_iff_queue_nonempty_witness :
    oneEnqueueState.batchTimeout = true
      ↔ oneEnqueueState.notificationQueue ≠ [] :=
  timer_iff_queue_nonempty oneEnqueueState
    ⟨[.enqueueEv sampleEntry], by decide⟩

/-- Helper: the "Failed to send batch notification: " message is never the
empty string. -/
theorem batch_error_nonempty (s : String) :
    ("Failed to send batch notification: " ++ s) ≠ "" := by
  intro h
  have hlen := congrArg String.length h
  rw [String.length_append] at hlen
  have h35 : ("Failed to send batch notification: " : String).length = 35 := by
    decide
  rw [h35] at hlen
  simp at hlen

/-- Helper: inserting an entry into the grouping keeps exactly the previous
entries plus the new one. -/
theorem flattenGroups_insertGroup
    (gs : List (String × List PagerBatchedNotification)) (key : String)
    (n : PagerBatchedNotification) :
    (flattenGroups (insertGroup gs key n)).Perm (flattenGroups gs ++ [n]) := by
  induction gs with
  | nil => simp [insertGroup, flattenGroups]
  | cons g rest ih =>
    obtain ⟨k, ns⟩ := g
    by_cases hk : k = key
    · subst hk
      have hins : insertGroup ((k, ns) :: rest) k n = (k, ns ++ [n]) :: rest := by
        simp [insertGroup]
      rw [hins]
      simp only [flattenGroups, List.map_cons, List.flatten_cons,
        List.append_assoc]
      exact (@List.perm_append_comm _ [n] _).append_left ns
    · have hins : insertGroup ((k, ns) :: rest) key n
          = (k, ns) :: insertGroup rest key n := by
        simp [insertGroup, hk]
      rw [hins]
      simp only [flattenGroups, List.map_cons, List.flatten_cons,
        List.append_assoc]
      exact List.Perm.append_left ns ih

/-- Helper: grouping the queue by endpoint and API key is a partition - the
groups hold exactly the queue's entries. -/
theorem groupEntries_perm (queue : List PagerBatchedNotification) :
    (flattenGroups (groupEntries queue)).Perm queue := by
  have gen : ∀ (q : List PagerBatchedNotification)
      (gs : List (String × List PagerBatchedNotification)),
      (flattenGroups
        (q.foldl (fun acc n =>
          insertGroup acc (n.backendUrl ++ "|" ++ n.apiKey) n) gs)).Perm
        (flattenGroups gs ++ q) := by
    intro q
    induction q with
    | nil =>
      intro gs
      simp
    | cons n rest ih =>
      intro gs
      refine (ih _).trans ?_
      refine ((flattenGroups_insertGroup gs _ n).append_right rest).trans ?_
      rw [List.append_assoc]
      exact List.Perm.refl _
  simpa [groupEntries, flattenGroups] using gen queue []

/-- Helper: a group's resolutions target exactly the group's entries, in
order, whatever the fetch outcome. -/
theorem processGroup_ids (key : String)
    (ns : List PagerBatchedNotification) (nowIso nowIso2 : String)
    (outcome : FetchOutcome) :
    (processGroup key ns nowIso nowIso2 outcome).2.map Prod.fst
      = ns.map PagerBatchedNotification.id := by
  cases outcome with
  | resp ok jsonBody errorText =>
    cases ok <;> simp [processGroup, List.map_map, Function.comp]
  | thrown a m => simp [processGroup, List.map_map, Function.comp]

/-- Helper: every resolution a group emits has the success shape or the
failure shape. -/
theorem processGroup_shape (key : String)
    (ns : List PagerBatchedNotification) (nowIso nowIso2 : String)
    (outcome : FetchOutcome) (p : Nat × PagerNotificationResponse)
    (hp : p ∈ (processGroup key ns nowIso nowIso2 outcome).2) :
    resolutionShapeB p = true := by
  cases outcome with
  | resp ok jsonBody errorText =>
    cases ok with
    | true =>
      have h2 : (processGroup key ns nowIso nowIso2
            (.resp true jsonBody errorText)).2
          = ns.map (fun n => (n.id,
              mergeBatchSuccess
                (jsonBody.getD { success := some true, timestamp := some nowIso2 })
                n.timestamp (ns.length : Int))) := rfl
      rw [h2] at hp
      obtain ⟨n, hn, rfl⟩ := List.mem_map.mp hp
      simp [resolutionShapeB, mergeBatchSuccess]
    | false =>
      have h2 : (processGroup key ns nowIso nowIso2
            (.resp false jsonBody errorText)).2
          = ns.map (fun n => (n.id,
              { success := some false
                error := some ("Failed to send batch notification: " ++ errorText)
                timestamp := some n.timestamp })) := rfl
      rw [h2] at hp
      obtain ⟨n, hn, rfl⟩ := List.mem_map.mp hp
      simp [resolutionShapeB, batch_error_nonempty errorText]
  | thrown a m =>
    have h2 : (processGroup key ns nowIso nowIso2 (.thrown a m)).2
        = ns.map (fun n => (n.id,
            { success := some false
              error := some ("Failed to send batch notification: " ++ m)
              timestamp := some n.timestamp })) := rfl
    rw [h2] at hp
    obtain ⟨n, hn, rfl⟩ := List.mem_map.mp hp
    simp [resolutionShapeB, batch_error_nonempty m]

/-- Helper: the identities resolved by `processBatch` are exactly the
identities held by the grouping of the drained queue. -/
theorem processBatch_ids (currentQueue : List PagerBatchedNotification)
    (nowIso nowIso2 : String) (oracle : Nat → FetchOutcome) :
    (processBatch currentQueue nowIso nowIso2 oracle).2.map Prod.fst
      = (flattenGroups (groupEntries currentQueue)).map
          PagerBatchedNotification.id := by
  unfold processBatch
  split
  · rename_i hq
    subst hq
    rfl
  · have aux : ∀ (L : List (Nat × (String × List PagerBatchedNotification))),
        (((L.map (fun p =>
            processGroup p.2.1 p.2.2 nowIso nowIso2 (oracle p.1))).map
          Prod.snd).flatten).map Prod.fst
        = ((L.map Prod.snd).map Prod.snd).flatten.map
            PagerBatchedNotification.id := by
      intro L
      induction L with
      | nil => rfl
      | cons p L ih =>
        simp only [List.map_cons, List.flatten_cons, List.map_append, ih,
          processGroup_ids]
    exact aux (groupEntries currentQueue).enum |>.trans
      (by rw [List.enum_eq_enumFrom, List.enumFrom_map_snd]; rfl)

/-- Helper: exact characterisation of one group's resolutions by the fetch
outcome, with the definitions unfolded into explicit response records. -/
theorem processGroup_resolutions (key : String)
    (ns : List PagerBatchedNotification) (nowIso nowIso2 : String)
    (outcome : FetchOutcome) :
    (processGroup key ns nowIso nowIso2 outcome).2
      = match outcome with
        | .resp true jsonBody _ =>
          ns.map (fun n => (n.id,
            { (jsonBody.getD { success := some true, timestamp := some nowIso2 }) with
              success := some true
              timestamp := some n.timestamp
              batched := some true
              batchSize := some (ns.length : Int) }))
        | .resp false _ errorText =>
          ns.map (fun n => (n.id,
            { success := some false
              error := some ("Failed to send batch notification: " ++ errorText)
              timestamp := some n.timestamp }))
        | .thrown _ message =>
          ns.map (fun n => (n.id,
            { success := some false
              error := some ("Failed to send batch notification: " ++ message)
              timestamp := some n.timestamp })) := by
  cases outcome with
  | resp ok jsonBody errorText => cases ok <;> rfl
  | thrown a m => rfl

/-- Claim C7: every batch flush resolves the promise of every drained queue
entry exactly once - the multiset of resolved promise identities is a
permutation of the drained entries' identities, so no entry is rejected or
left pending - and the resolutions are exactly determined, group by group,
by the group's fetch outcome: on a 2xx response every entry of the group
resolves with the parsed backend body merged under
`success=true, batched=true, batchSize = ` the group's size and the entry's
own timestamp (a non-JSON body falling back to `{success:=true,
timestamp:=nowIso2}` before the merge); on a non-2xx response or a thrown
transport error every entry of the group resolves with `success=false`, the
"Failed to send batch notification: ..." message and no `batched` field.
Additionally every resolution satisfies the success-or-failure shape
discipline (`batchSize` present and `batched=true` on success; a non-empty
error and no `batched` on failure). -/
theorem batch_flush_resolves_each_entry_exactly_once
    (currentQueue : List PagerBatchedNotification) (nowIso nowIso2 : String)
    (oracle : Nat → FetchOutcome) :
    (((processBatch currentQueue nowIso nowIso2 oracle).2.map Prod.fst).Perm
        (currentQueue.map PagerBatchedNotification.id))
    ∧ ((processBatch currentQueue nowIso nowIso2 oracle).2
        = ((groupEntries currentQueue).enum.map (fun p =>
            match oracle p.1 with
            | .resp true jsonBody _ =>
              p.2.2.map (fun n => (n.id,
                { (jsonBody.getD { success := some true, timestamp := some nowIso2 }) with
                  success := some true
                  timestamp := some n.timestamp
                  batched := some true
                  batchSize := some (p.2.2.length : Int) }))
            | .resp false _ errorText =>
              p.2.2.map (fun n => (n.id,
                { success := some false
                  error := some ("Failed to send batch notification: " ++ errorText)
                  timestamp := some n.timestamp }))
            | .thrown _ message =>
              p.2.2.map (fun n => (n.id,
                { success := some false
                  error := some ("Failed to send batch notification: " ++ message)
                  timestamp := some n.timestamp })))).flatten)
    ∧ ((processBatch currentQueue nowIso nowIso2 oracle).2.all
        resolutionShapeB = true) := by
  refine ⟨?_, ?_, ?_⟩
  · rw [processBatch_ids]
    exact (groupEntries_perm currentQueue).map PagerBatchedNotification.id
  · unfold processBatch
    split
    · rename_i hq
      subst hq
      rfl
    · simp only [List.map_map]
      refine congrArg List.flatten (List.map_congr_left ?_)
      intro p hp
      exact processGroup_resolutions p.2.1 p.2.2 nowIso nowIso2 (oracle p.1)
  · rw [List.all_eq_true]
    intro p hp
    unfold processBatch at hp
    split at hp
    · simp at hp
    · simp only [List.map_map, List.mem_flatten, List.mem_map,
        Function.comp] at hp
      obtain ⟨l, ⟨a, ha, rfl⟩, hpl⟩ := hp
      exact processGroup_shape _ _ _ _ _ p hpl

end Pager
